import Mathlib

/-
Verification development for the hl-sdk exchange client.

The development shallowly embeds the signing and dispatch pipeline of the
SDK: the EIP-712 style structured hashing of `src/types/eip712.rs`, the
action structs of `src/types/actions.rs`, and the dispatch logic of
`src/providers/exchange.rs` (hash_action, send_l1_action, send_user_action,
post, current_nonce, place_order, cancel_order, update_leverage).

Conventions of the embedding:
- machine integers are Nat with explicit `% 2^w` where overflow matters;
- byte strings are `List Nat` with each element < 256;
- `serde_json::Value` is the `Json` inductive below; `serde_json::Map` is
  (by default feature flags) a BTreeMap keyed by `String`, embedded as an
  assoc list kept sorted by byte-wise UTF-8 key order (`objInsert`);
- `keccak256` is the real Keccak-256 permutation, executable, checked
  against the standard empty-string test vector;
- `rmp_serde::to_vec_named` on a `serde_json::Value` is `msgpackValue`;
- stateful/async code is embedded as explicit state passing, fallible code
  as `Except`.
-/

abbrev Bytes := List Nat

/-- UTF-8 byte encoding of a string (Rust `str::as_bytes`). -/
def utf8Str (s : String) : Bytes := s.data.flatMap (fun c =>
  let n := c.toNat
  if n < 0x80 then [n]
  else if n < 0x800 then [0xC0 + n / 64, 0x80 + n % 64]
  else if n < 0x10000 then [0xE0 + n / 4096, 0x80 + (n / 64) % 64, 0x80 + n % 64]
  else [0xF0 + n / 262144, 0x80 + (n / 4096) % 64, 0x80 + (n / 64) % 64, 0x80 + n % 64])

def hexDigit (n : Nat) : Char := if n < 10 then Char.ofNat (48 + n) else Char.ofNat (87 + n)

/-- Lowercase hex of a byte string (Rust `hex::encode`). -/
def bytesHex (l : Bytes) : String := String.mk (l.flatMap (fun b => [hexDigit (b / 16), hexDigit (b % 16)]))

/-- The provider renders addresses as `format!("0x{}", hex::encode(addr))`. -/
def addressHex (addr : Bytes) : String := "0x" ++ bytesHex addr

/-- Lowercase hex rendering of a `B256` value, as alloy serde serializes it. -/
def b256Hex (b : Bytes) : String := "0x" ++ bytesHex b

/-- Fixed-width lowercase hex of a number, as `format!("{:0Nx}", v)`. -/
def fixedHex (width n : Nat) : String :=
  String.mk ((List.range width).map (fun i => hexDigit ((n >>> (4 * (width - 1 - i))) % 16)))

def be16 (n : Nat) : Bytes := [(n >>> 8) % 256, n % 256]
def be32n (n : Nat) : Bytes := (List.range 4).map (fun i => (n >>> (8 * (3 - i))) % 256)

/-- Big-endian 8-byte encoding (Rust `u64::to_be_bytes`). -/
def be64 (n : Nat) : Bytes := (List.range 8).map (fun i => (n >>> (8 * (7 - i))) % 256)

/-- Big-endian 32-byte encoding (alloy `U256::to_be_bytes::<32>`). -/
def be256 (n : Nat) : Bytes := (List.range 32).map (fun i => (n >>> (8 * (31 - i))) % 256)

/- ===================== Keccak-256 ===================== -/

def MASK64 : Nat := 2 ^ 64 - 1

def rotl64 (x n : Nat) : Nat := ((x <<< n) ||| (x >>> (64 - n))) &&& MASK64

/-- One step of the degree-8 LFSR generating the iota round-constant bits
(polynomial x^8 + x^6 + x^5 + x^4 + 1). -/
def lfsrStep (r : Nat) : Nat :=
  let r2 := r <<< 1
  (if r2 &&& 0x100 = 0 then r2 else r2 ^^^ 0x171) &&& 0xFF

/-- Bit t of the round-constant bit stream rc(t). -/
def rcBit (t : Nat) : Nat :=
  (Nat.rec 1 (fun _ r => lfsrStep r) t : Nat) &&& 1

/-- The 24 iota round constants, rebuilt from the bit stream: bit 2^j - 1
of constant i is rc(j + 7 i). -/
def keccakRC : List Nat :=
  (List.range 24).map (fun i =>
    (List.range 7).foldl (fun acc j => acc ||| (rcBit (j + 7 * i) <<< (2 ^ j - 1))) 0)

/-- The rho rotation offsets as (lane index, offset) pairs, generated by
the standard (x, y) -> (y, 2x + 3y) walk with offsets (t+1)(t+2)/2. -/
def keccakRotPairs : List (Nat × Nat) :=
  (((List.range 24).foldl (fun st t =>
      ((st.1.2, (2 * st.1.1 + 3 * st.1.2) % 5),
       (st.1.1 + 5 * st.1.2, ((t + 1) * (t + 2) / 2) % 64) :: st.2))
    ((1, 0), [])).2)

/-- The rho rotation offset of the lane with index i = x + 5y (lane 0 is
not rotated). -/
def keccakRotOf (i : Nat) : Nat :=
  ((keccakRotPairs.find? (fun pr => pr.1 = i)).map Prod.snd).getD 0

def lane (s : List Nat) (x y : Nat) : Nat := s.getD (x % 5 + 5 * (y % 5)) 0

def theta (s : List Nat) : List Nat :=
  let c := (List.range 5).map (fun x =>
    lane s x 0 ^^^ lane s x 1 ^^^ lane s x 2 ^^^ lane s x 3 ^^^ lane s x 4)
  let d := (List.range 5).map (fun x =>
    c.getD ((x + 4) % 5) 0 ^^^ rotl64 (c.getD ((x + 1) % 5) 0) 1)
  (List.range 25).map (fun i => s.getD i 0 ^^^ d.getD (i % 5) 0)

def rhoPi (s : List Nat) : List Nat :=
  (List.range 25).map (fun i =>
    let y := i % 5
    let x := (3 * (i / 5 + 15 - 3 * y)) % 5
    rotl64 (lane s x y) (keccakRotOf (x + 5 * y)))

def chi (s : List Nat) : List Nat :=
  (List.range 25).map (fun i =>
    let x := i % 5
    let y := i / 5
    lane s x y ^^^ ((lane s (x + 1) y ^^^ MASK64) &&& lane s (x + 2) y))

def iotaStep (rc : Nat) : List Nat → List Nat
  | [] => []
  | a :: rest => (a ^^^ rc) :: rest

def keccakRound (s : List Nat) (rc : Nat) : List Nat := iotaStep rc (chi (rhoPi (theta s)))

def keccakF (s : List Nat) : List Nat := keccakRC.foldl keccakRound s

def bytesToLanes (bytes : Bytes) : List Nat :=
  (List.range 17).map (fun i =>
    (List.range 8).foldl (fun acc j => acc + (bytes.getD (8 * i + j) 0) <<< (8 * j)) 0)

def absorbBlock (st : List Nat) (block : Bytes) : List Nat :=
  let lanes := bytesToLanes block
  keccakF ((List.range 25).map (fun i => st.getD i 0 ^^^ lanes.getD i 0))

/-- Original Keccak multi-rate padding (domain byte 0x01), rate 136. -/
def keccakPad (msg : Bytes) : Bytes :=
  let padLen := 136 - msg.length % 136
  msg ++ (if padLen = 1 then [0x81] else 0x01 :: List.replicate (padLen - 2) 0 ++ [0x80])

def absorbChunks : Nat → List Nat → Bytes → List Nat
  | 0, st, _ => st
  | n + 1, st, msg => absorbChunks n (absorbBlock st (msg.take 136)) (msg.drop 136)

def laneBytes (x : Nat) : Bytes := (List.range 8).map (fun j => (x >>> (8 * j)) % 256)

/-- Keccak-256 of a byte string (the `keccak256` of alloy-primitives). -/
def keccak256 (msg : Bytes) : Bytes :=
  let padded := keccakPad msg
  let final := absorbChunks (padded.length / 136) (List.replicate 25 0) padded
  ((final.take 4).map laneBytes).flatten

/- ===================== serde_json value model ===================== -/

/-- The arbitrary-precision number of serde_json: an unsigned integer, a
negative integer, or a double (carried as its bit pattern; the code under
study only inspects numbers through `as_u64`). -/
inductive JNumber where
  | posInt (n : Nat)
  | negInt (n : Int)
  | float (bits : Nat)
deriving DecidableEq, Repr

/-- serde_json `Number::as_u64`. -/
def JNumber.as_u64 : JNumber → Option Nat
  | .posInt n => some n
  | _ => none

inductive Json where
  | null
  | bool (b : Bool)
  | num (n : JNumber)
  | str (s : String)
  | arr (items : List Json)
  | obj (fields : List (String × Json))
deriving Repr

/-- Byte-wise lexicographic order, the `Ord` of Rust byte slices. -/
def byteLt (u v : Bytes) : Bool :=
  match u, v with
  | _, [] => false
  | [], _ => true
  | x :: xs, y :: ys => if x < y then true else if y < x then false else byteLt xs ys

/-- Rust `String` ordering: byte-wise over the UTF-8 encoding. -/
def keyLt (s t : String) : Bool := byteLt (utf8Str s) (utf8Str t)

/-- Insertion into the sorted assoc list embedding `serde_json::Map`
(a BTreeMap under default feature flags): keeps keys sorted, replaces an
existing key. -/
def objInsert (k : String) (v : Json) : List (String × Json) → List (String × Json)
  | [] => [(k, v)]
  | (k', v') :: rest =>
    if keyLt k k' then (k, v) :: (k', v') :: rest
    else if k = k' then (k, v) :: rest
    else (k', v') :: objInsert k v rest

/-- `serde_json::Map::remove`. -/
def objRemove (k : String) : List (String × Json) → List (String × Json)
  | [] => []
  | (k', v) :: rest => if k' = k then rest else (k', v) :: objRemove k rest

/-- Build the map that serde produces when a struct serializes its fields in
declaration order: each field is inserted in turn into the BTreeMap. -/
def mkObj (fields : List (String × Json)) : Json :=
  Json.obj (fields.foldl (fun m kv => objInsert kv.1 kv.2 m) [])

/-- `serde_json::Value::get` on a key (None on non-objects). -/
def objGet (k : String) : Json → Option Json
  | .obj fields => go fields
  | _ => none
where go : List (String × Json) → Option Json
  | [] => none
  | (k', v) :: rest => if k = k' then some v else go rest

/-- `serde_json::Value::as_u64`. -/
def jsonAsU64 : Json → Option Nat
  | .num n => n.as_u64
  | _ => none

/- ===================== MessagePack (rmp_serde::to_vec_named) ===================== -/

def mpStr (s : String) : Bytes :=
  let b := utf8Str s
  (if b.length < 32 then [0xa0 + b.length]
   else if b.length < 256 then [0xd9, b.length]
   else if b.length < 65536 then 0xda :: be16 b.length
   else 0xdb :: be32n b.length) ++ b

def mpUint (n : Nat) : Bytes :=
  if n < 128 then [n]
  else if n < 256 then [0xcc, n]
  else if n < 65536 then 0xcd :: be16 n
  else if n < 4294967296 then 0xce :: be32n n
  else 0xcf :: be64 n

def mpSint (n : Int) : Bytes :=
  if n ≥ -32 then [(256 + n).toNat % 256]
  else if n ≥ -128 then [0xd0, (256 + n).toNat % 256]
  else if n ≥ -32768 then 0xd1 :: be16 ((65536 + n).toNat % 65536)
  else if n ≥ -2147483648 then 0xd2 :: be32n ((4294967296 + n).toNat % 4294967296)
  else 0xd3 :: be64 ((18446744073709551616 + n).toNat % 18446744073709551616)

def mpArrHeader (len : Nat) : Bytes :=
  if len < 16 then [0x90 + len]
  else if len < 65536 then 0xdc :: be16 len
  else 0xdd :: be32n len

def mpMapHeader (len : Nat) : Bytes :=
  if len < 16 then [0x80 + len]
  else if len < 65536 then 0xde :: be16 len
  else 0xdf :: be32n len

mutual

/-- `rmp_serde::to_vec_named` applied to a `serde_json::Value`: most-compact
MessagePack, maps written with string keys. -/
def msgpackValue : Json → Bytes
  | .null => [0xc0]
  | .bool false => [0xc2]
  | .bool true => [0xc3]
  | .num (.posInt n) => mpUint n
  | .num (.negInt n) => mpSint n
  | .num (.float bits) => 0xcb :: be64 bits
  | .str s => mpStr s
  | .arr items => mpArrHeader items.length ++ msgpackItems items
  | .obj fields => mpMapHeader fields.length ++ msgpackFields fields

def msgpackItems : List Json → Bytes
  | [] => []
  | j :: rest => msgpackValue j ++ msgpackItems rest

def msgpackFields : List (String × Json) → Bytes
  | [] => []
  | (k, v) :: rest => mpStr k ++ msgpackValue v ++ msgpackFields rest

end

/- ===================== src/types/eip712.rs ===================== -/

/-- `encode_field` of src/types/eip712.rs: strings are keccak-hashed, numbers
representable as u64 become 32-byte big-endian, everything else becomes 32
zero bytes. -/
def encode_field (value : Json) : Bytes :=
  match value with
  | Json.str s => keccak256 (utf8Str s)
  | Json.num n =>
    match n.as_u64 with
    | some u => be256 u
    | none => List.replicate 32 0
  | _ => List.replicate 32 0

/-- `HyperliquidAction::type_hash`: keccak of the type string, prefixed with
"HyperliquidTransaction:" when the action uses the prefix. -/
def type_hash (prefixed : Bool) (ts : String) : Bytes :=
  keccak256 (utf8Str (if prefixed then "HyperliquidTransaction:" ++ ts else ts))

/-- `HyperliquidAction::encode_data`: the type hash followed by the encoded
field values, iterating the serde_json map of the serialized action (sorted
key order) after removing the signatureChainId entry. -/
def encode_data (prefixed : Bool) (ts : String) (value : Json) : Bytes :=
  type_hash prefixed ts ++
    match value with
    | Json.obj fields => ((objRemove "signatureChainId" fields).map (fun kv => encode_field kv.2)).flatten
    | _ => []

/-- `HyperliquidAction::struct_hash`. -/
def struct_hash (prefixed : Bool) (ts : String) (value : Json) : Bytes :=
  keccak256 (encode_data prefixed ts value)

/-- `Eip712Domain::separator` for a domain {name, version, chainId, zero
verifying contract}, as alloy computes it. -/
def domain_separator (name version : String) (chainId : Nat) : Bytes :=
  keccak256 (keccak256 (utf8Str "EIP712Domain(string name,string version,uint256 chainId,address verifyingContract)")
    ++ keccak256 (utf8Str name) ++ keccak256 (utf8Str version) ++ be256 chainId ++ List.replicate 32 0)

/-- `HyperliquidAction::eip712_signing_hash`: keccak of 0x19 0x01 followed by
the domain separator and the struct hash. -/
def eip712_signing_hash (sep sh : Bytes) : Bytes :=
  keccak256 (0x19 :: 0x01 :: (sep ++ sh))

/- ===================== src/types/actions.rs ===================== -/

def jsonOfOptString : Option String → Json
  | some s => Json.str s
  | none => Json.null

structure UsdSend where
  signature_chain_id : Nat
  hyperliquid_chain : String
  destination : String
  amount : String
  time : Nat

def UsdSend.TYPE_STRING : String :=
  "UsdSend(string hyperliquidChain,string destination,string amount,uint64 time)"

/-- serde_json::to_value of a UsdSend: camelCase keys inserted in field
declaration order into the BTreeMap. -/
def UsdSend.toValue (a : UsdSend) : Json :=
  mkObj [("signatureChainId", Json.num (JNumber.posInt a.signature_chain_id)),
         ("hyperliquidChain", Json.str a.hyperliquid_chain),
         ("destination", Json.str a.destination),
         ("amount", Json.str a.amount),
         ("time", Json.num (JNumber.posInt a.time))]

structure Withdraw where
  signature_chain_id : Nat
  hyperliquid_chain : String
  destination : String
  amount : String
  time : Nat

def Withdraw.TYPE_STRING : String :=
  "Withdraw(string hyperliquidChain,string destination,string amount,uint64 time)"

def Withdraw.toValue (a : Withdraw) : Json :=
  mkObj [("signatureChainId", Json.num (JNumber.posInt a.signature_chain_id)),
         ("hyperliquidChain", Json.str a.hyperliquid_chain),
         ("destination", Json.str a.destination),
         ("amount", Json.str a.amount),
         ("time", Json.num (JNumber.posInt a.time))]

structure SpotSend where
  signature_chain_id : Nat
  hyperliquid_chain : String
  destination : String
  token : String
  amount : String
  time : Nat

def SpotSend.TYPE_STRING : String :=
  "SpotSend(string hyperliquidChain,string destination,string token,string amount,uint64 time)"

def SpotSend.toValue (a : SpotSend) : Json :=
  mkObj [("signatureChainId", Json.num (JNumber.posInt a.signature_chain_id)),
         ("hyperliquidChain", Json.str a.hyperliquid_chain),
         ("destination", Json.str a.destination),
         ("token", Json.str a.token),
         ("amount", Json.str a.amount),
         ("time", Json.num (JNumber.posInt a.time))]

structure ApproveAgent where
  signature_chain_id : Nat
  hyperliquid_chain : String
  agent_address : String
  agent_name : Option String
  nonce : Nat

def ApproveAgent.TYPE_STRING : String :=
  "ApproveAgent(string hyperliquidChain,address agentAddress,string agentName,uint64 nonce)"

def ApproveAgent.toValue (a : ApproveAgent) : Json :=
  mkObj [("signatureChainId", Json.num (JNumber.posInt a.signature_chain_id)),
         ("hyperliquidChain", Json.str a.hyperliquid_chain),
         ("agentAddress", Json.str a.agent_address),
         ("agentName", jsonOfOptString a.agent_name),
         ("nonce", Json.num (JNumber.posInt a.nonce))]

structure ApproveBuilderFee where
  signature_chain_id : Nat
  hyperliquid_chain : String
  max_fee_rate : String
  builder : String
  nonce : Nat

def ApproveBuilderFee.TYPE_STRING : String :=
  "ApproveBuilderFee(string hyperliquidChain,string maxFeeRate,string builder,uint64 nonce)"

def ApproveBuilderFee.toValue (a : ApproveBuilderFee) : Json :=
  mkObj [("signatureChainId", Json.num (JNumber.posInt a.signature_chain_id)),
         ("hyperliquidChain", Json.str a.hyperliquid_chain),
         ("maxFeeRate", Json.str a.max_fee_rate),
         ("builder", Json.str a.builder),
         ("nonce", Json.num (JNumber.posInt a.nonce))]

/-- The L1 Agent action: `source` string and a 32-byte connection id. -/
structure Agent where
  source : String
  connection_id : Bytes

def Agent.TYPE_STRING : String := "Agent(string source,bytes32 connectionId)"

/-- alloy B256 serializes as a lowercase 0x-hex string in JSON. -/
def Agent.toValue (a : Agent) : Json :=
  mkObj [("source", Json.str a.source),
         ("connectionId", Json.str (b256Hex a.connection_id))]

/-- Modelled from the spec: the `l1_action` macro (its definition is not
under src, only its use site and tests are) marks the Agent action as
unprefixed; the tests of src/types/actions.rs pin the unprefixed type hash. -/
def Agent.USE_HYPERLIQUID_TRANSACTION_MARK : Bool := false

/-- The trait `struct_hash` at the Agent instance. -/
def agentStructHash (a : Agent) : Bytes :=
  struct_hash false Agent.TYPE_STRING (Agent.toValue a)

structure UpdateLeverage where
  asset : Nat
  is_cross : Bool
  leverage : Nat

def UpdateLeverage.toValue (u : UpdateLeverage) : Json :=
  mkObj [("asset", Json.num (JNumber.posInt u.asset)),
         ("isCross", Json.bool u.is_cross),
         ("leverage", Json.num (JNumber.posInt u.leverage))]

/-- Per-variant type hashes, mirroring the associated function
`type_hash()` of the trait impls: no instance argument, hence one constant
value per variant, independent of instance data. -/
def UsdSend.typeHash : Bytes := type_hash true UsdSend.TYPE_STRING

def Withdraw.typeHash : Bytes := type_hash true Withdraw.TYPE_STRING

def SpotSend.typeHash : Bytes := type_hash true SpotSend.TYPE_STRING

def ApproveAgent.typeHash : Bytes := type_hash true ApproveAgent.TYPE_STRING

def ApproveBuilderFee.typeHash : Bytes := type_hash true ApproveBuilderFee.TYPE_STRING

def Agent.typeHash : Bytes := type_hash false Agent.TYPE_STRING

/-- Observer: the order in which `encode_data` hashes the fields of a
serialized action object, as a list of JSON keys. -/
def encoded_field_order (value : Json) : List String :=
  match value with
  | Json.obj fields => (objRemove "signatureChainId" fields).map Prod.fst
  | _ => []

def splitOnChar (c : Char) : List Char → List (List Char)
  | [] => [[]]
  | x :: rest =>
    let r := splitOnChar c rest
    if x = c then [] :: r
    else match r with
      | [] => [[x]]
      | h :: t => (x :: h) :: t

/-- Observer: the field order a TYPE_STRING declares, read off the string
itself (the name after the space in each comma-separated parameter). -/
def declared_field_order (ts : String) : List String :=
  let inner := ((ts.data.dropWhile (fun ch => ch ≠ '(')).drop 1).takeWhile (fun ch => ch ≠ ')')
  (splitOnChar ',' inner).map (fun f => String.mk ((splitOnChar ' ' f).reverse.headD []))

/- ===================== src/providers/exchange.rs ===================== -/

/-- Modelled from the spec: the chain identifiers of crate::constants (the
constants module is not under src). The spec fixes one identifier per
network; the concrete values are immaterial to the theorems below. -/
def CHAIN_ID_MAINNET : Nat := 42161

/-- Modelled from the spec: testnet chain identifier of crate::constants. -/
def CHAIN_ID_TESTNET : Nat := 421614

/-- Modelled from the spec: the agent-source tag of crate::constants for
mainnet, pinned to "a" by the test in src/signers/signer.rs. -/
def AGENT_SOURCE_MAINNET : String := "a"

/-- Modelled from the spec: the agent-source tag of crate::constants for
testnet. -/
def AGENT_SOURCE_TESTNET : String := "b"

/-- Modelled from the spec: the fixed positive weight of an order placement
(crate::constants::WEIGHT_PLACE_ORDER; the value is immaterial, only its
positivity is used). -/
def WEIGHT_PLACE_ORDER : Nat := 1

/-- Modelled from the spec: the fixed positive weight of an order cancel. -/
def WEIGHT_CANCEL_ORDER : Nat := 1

/-- `ExchangeProvider::infer_network`, with `endpoint.contains("testnet")`
embedded as the Boolean argument. -/
def infer_network (is_testnet : Bool) : Nat × String :=
  if is_testnet then (CHAIN_ID_TESTNET, AGENT_SOURCE_TESTNET)
  else (CHAIN_ID_MAINNET, AGENT_SOURCE_MAINNET)

def agent_source (is_testnet : Bool) : String := (infer_network is_testnet).2

/-- The error taxonomy of crate::errors (the module is not under src);
modelled from the spec, section 7, with the variants the embedded code
constructs. -/
inductive HyperliquidError where
  | rateLimited (requested : Nat) (available : ℚ)
  | invalidRequest (msg : String)
  | network (msg : String)
  | http (status : Nat) (body : String)
  | invalidResponse (msg : String)
deriving DecidableEq, Repr

/-- Modelled from the spec: the token-bucket rate limiter of
src/providers/info.rs (not under src). Spec, section 4.2: continuous refill
`elapsed_seconds * refill_rate` capped at capacity; admission checks
`available_tokens >= weight`, decrements on success, returns a typed
rejection carrying the requested weight and current availability on
failure. The elapsed time since the last refill is passed explicitly. -/
structure RateLimiter where
  capacity : ℚ
  refill_rate : ℚ
  tokens : ℚ
deriving DecidableEq

/-- Modelled from the spec: `RateLimiter::check_weight` admission check. -/
def check_weight (rl : RateLimiter) (elapsed_s : ℚ) (weight : Nat) :
    Except HyperliquidError RateLimiter :=
  let available := min rl.capacity (rl.tokens + elapsed_s * rl.refill_rate)
  if (weight : ℚ) ≤ available then
    Except.ok { rl with tokens := available - weight }
  else
    Except.error (HyperliquidError.rateLimited weight available)

/-- `HyperliquidSignature` of src/signers/signer.rs: r, s as U256 and a v
byte. -/
structure HyperliquidSignature where
  r : Nat
  s : Nat
  v : Nat

/-- A signing backend: the `HyperliquidSigner::sign_hash` capability as a
function from the 32-byte digest to a signature. -/
abbrev SignerFun := Bytes → HyperliquidSignature

/-- `ExchangeProvider::current_nonce`: the wall-clock time in milliseconds,
truncated to u64. The clock reading is the explicit argument. -/
def current_nonce (now_ms : Nat) : Nat := now_ms % 2 ^ 64

/-- Inserting the `type` tag into the serialized action, as both
`hash_action` and `send_l1_action` do: only values that serialize to a JSON
object receive the tag. -/
def tagJson (action_type : String) : Json → Json
  | Json.obj fields => Json.obj (objInsert "type" (Json.str action_type) fields)
  | j => j

/-- Observer: the vault marker appended by `hash_action`: 0x01 plus the
vault address when a vault is configured, a single 0x00 byte otherwise. -/
def vault_marker : Option Bytes → Bytes
  | some v => 1 :: v
  | none => [0]

/-- `ExchangeProvider::hash_action`: keccak of the MessagePack (named)
encoding of the type-tagged action, then the 8-byte big-endian timestamp,
then the vault marker. -/
def hash_action (action_type : String) (action : Json) (timestamp : Nat)
    (vault_address : Option Bytes) : Bytes :=
  let tagged := tagJson action_type action
  let bytes := msgpackValue tagged ++ be64 timestamp
  keccak256 (bytes ++ (match vault_address with
    | some vault => 1 :: vault
    | none => [0]))

/-- `{:064x}{:064x}{:02x}` rendering of a signature, as `post` builds it. -/
def sig_hex (s : HyperliquidSignature) : String :=
  fixedHex 64 s.r ++ fixedHex 64 s.s ++ fixedHex 2 s.v

/-- `ExchangeProvider::post`: the JSON body of the single POST request. -/
def post (vault_address : Option Bytes) (action : Json)
    (signature : HyperliquidSignature) (nonce : Nat) : Json :=
  mkObj [("action", action),
         ("signature", Json.str (sig_hex signature)),
         ("nonce", Json.num (JNumber.posInt nonce)),
         ("vaultAddress", match vault_address with
           | some a => Json.str (addressHex a)
           | none => Json.null)]

/-- The EIP-712 domain separator of the Exchange (agent) domain: name
"Exchange", version "1", chain id 1337, zero verifying contract, as pinned
by the tests of src/types/actions.rs and src/signers/signer.rs. -/
def exchange_domain_separator : Bytes := domain_separator "Exchange" "1" 1337

/-- The result of one L1 dispatch: the connection id bound into the digest,
the digest handed to the signer, and the JSON body handed to `post`. -/
structure L1Result where
  connection_id : Bytes
  signing_hash : Bytes
  payload : Json

/-- `ExchangeProvider::send_l1_action`: computes the connection id over the
tagged action, signs the Agent struct under the Exchange domain, tags the
action for the wire, wraps it one level deeper when an acting agent is
configured, and posts. -/
def send_l1_action (is_testnet : Bool) (vault_address agent : Option Bytes)
    (signer : SignerFun) (action_type : String) (action : Json) (nonce : Nat) : L1Result :=
  let connection_id := hash_action action_type action nonce vault_address
  let agent_struct : Agent := { source := agent_source is_testnet, connection_id := connection_id }
  let signing_hash := eip712_signing_hash exchange_domain_separator (agentStructHash agent_struct)
  let signature := signer signing_hash
  let action_value := tagJson action_type action
  let final_action := match agent with
    | some agent_address =>
      mkObj [("type", Json.str "agent"),
             ("agentAddress", Json.str (addressHex agent_address)),
             ("agentAction", action_value),
             ("source", Json.str (agent_source is_testnet))]
    | none => action_value
  { connection_id := connection_id,
    signing_hash := signing_hash,
    payload := post vault_address final_action signature nonce }

/-- `ExchangeProvider::send_user_action`: extracts the wire nonce from the
action's `time` field, else its `nonce` field, else a fresh wall-clock
value; tags the action with the Rust type's last path segment; posts. The
pair returned is (POST body, wire nonce). -/
def send_user_action (rust_type_name : String) (action_value : Json)
    (fresh_nonce : Nat) (vault_address : Option Bytes)
    (signature : HyperliquidSignature) : Json × Nat :=
  let nonce := (((objGet "time" action_value).orElse
      (fun _ => objGet "nonce" action_value)).bind jsonAsU64).getD fresh_nonce
  let tagged := tagJson rust_type_name action_value
  (post vault_address tagged signature nonce, nonce)

/-- `std::any::type_name::<UsdSend>()` ends in "UsdSend": the tag
`send_user_action` injects for this action type. -/
def UsdSend.rust_name : String := "UsdSend"

def Withdraw.rust_name : String := "Withdraw"

def SpotSend.rust_name : String := "SpotSend"

def ApproveAgent.rust_name : String := "ApproveAgent"

def ApproveBuilderFee.rust_name : String := "ApproveBuilderFee"

/-- The `BulkOrder` value `place_order` assembles: one order, grouping
"na", and the builder info (fee 0) only when a builder is configured. -/
def bulk_order_value (order : Json) (builder : Option Bytes) : Json :=
  mkObj ([("orders", Json.arr [order]), ("grouping", Json.str "na")] ++
    (match builder with
     | some b => [("builder", mkObj [("builder", Json.str (addressHex b)),
                                     ("fee", Json.num (JNumber.posInt 0))])]
     | none => []))

/-- `ExchangeProvider::place_order`: admission check for the order weight
first, then the L1 dispatch. An error result means no network call was
made; an ok result carries the dispatched request. -/
def place_order (rl : RateLimiter) (elapsed_s : ℚ) (is_testnet : Bool)
    (vault_address agent builder : Option Bytes) (signer : SignerFun)
    (order : Json) (nonce : Nat) :
    Except HyperliquidError (RateLimiter × L1Result) :=
  match check_weight rl elapsed_s WEIGHT_PLACE_ORDER with
  | Except.error e => Except.error e
  | Except.ok rl' =>
    Except.ok (rl', send_l1_action is_testnet vault_address agent signer "order"
      (bulk_order_value order builder) nonce)

/-- `ExchangeProvider::cancel_order`: admission check, then the L1 dispatch
of the BulkCancel value. -/
def cancel_order (rl : RateLimiter) (elapsed_s : ℚ) (is_testnet : Bool)
    (vault_address agent : Option Bytes) (signer : SignerFun)
    (asset oid : Nat) (nonce : Nat) :
    Except HyperliquidError (RateLimiter × L1Result) :=
  match check_weight rl elapsed_s WEIGHT_CANCEL_ORDER with
  | Except.error e => Except.error e
  | Except.ok rl' =>
    Except.ok (rl', send_l1_action is_testnet vault_address agent signer "cancel"
      (mkObj [("cancels", Json.arr [mkObj [("asset", Json.num (JNumber.posInt asset)),
                                           ("oid", Json.num (JNumber.posInt oid))]])]) nonce)

/-- `ExchangeProvider::update_leverage`: dispatches directly, with no
admission check (the source performs none for this operation). -/
def update_leverage (rl : RateLimiter) (_elapsed_s : ℚ) (is_testnet : Bool)
    (vault_address agent : Option Bytes) (signer : SignerFun)
    (asset : Nat) (is_cross : Bool) (leverage : Nat) (nonce : Nat) :
    Except HyperliquidError (RateLimiter × L1Result) :=
  Except.ok (rl, send_l1_action is_testnet vault_address agent signer "updateLeverage"
    (UpdateLeverage.toValue { asset := asset, is_cross := is_cross, leverage := leverage }) nonce)

/-- `ExchangeProvider::approve_agent`: the action value it constructs; the
agent address is rendered as its lowercase 0x-hex string, the same string
serialized on the wire and hashed by `encode_field`. -/
def approve_agent_action (is_testnet : Bool) (agent_address : Bytes)
    (agent_name : Option String) (nonce : Nat) : ApproveAgent :=
  let chain_id := (infer_network is_testnet).1
  { signature_chain_id := chain_id
  , hyperliquid_chain := if chain_id = CHAIN_ID_MAINNET then "Mainnet" else "Testnet"
  , agent_address := addressHex agent_address
  , agent_name := agent_name
  , nonce := nonce }

/-- Modelled from the spec: the fixed positive weight of an order modify
(crate::constants::WEIGHT_MODIFY_ORDER; value immaterial). -/
def WEIGHT_MODIFY_ORDER : Nat := 1

/-- Modelled from the spec: the fixed positive weight of a bulk order
submission (also used by bulk_modify in the source). -/
def WEIGHT_BULK_ORDER : Nat := 1

/-- Modelled from the spec: the fixed positive weight of a bulk cancel. -/
def WEIGHT_BULK_CANCEL : Nat := 1

/-- serde_json serialization of an i64 value: nonnegative values become
PosInt, negative ones NegInt. -/
def jsonOfI64 (n : Int) : JNumber :=
  if 0 ≤ n then JNumber.posInt n.toNat else JNumber.negInt n

/-- Modelled from the spec: `OrderRequest::with_cloid` (requests.rs is not
under src) sets the order's cloid field; exchange.rs renders the cloid as
a 32-digit hex string. -/
def with_cloid (order : Json) (cloid : String) : Json :=
  match order with
  | Json.obj fields => Json.obj (objInsert "cloid" (Json.str cloid) fields)
  | j => j

/-- The BulkOrder value of `place_order_with_builder_fee`: one order,
grouping "na", builder info carrying the caller's fee when a builder is
configured. -/
def bulk_order_fee_value (order : Json) (builder : Option Bytes) (fee : Nat) : Json :=
  mkObj ([("orders", Json.arr [order]), ("grouping", Json.str "na")] ++
    (match builder with
     | some b => [("builder", mkObj [("builder", Json.str (addressHex b)),
                                     ("fee", Json.num (JNumber.posInt fee))])]
     | none => []))

/-- The BulkOrder value of the bulk order operations. -/
def bulk_orders_value (orders : List Json) (builder : Option Bytes) (fee : Nat) : Json :=
  mkObj ([("orders", Json.arr orders), ("grouping", Json.str "na")] ++
    (match builder with
     | some b => [("builder", mkObj [("builder", Json.str (addressHex b)),
                                     ("fee", Json.num (JNumber.posInt fee))])]
     | none => []))

/-- `ExchangeProvider::place_order_with_builder_fee`: admission check for
the order weight, then the L1 dispatch with the caller's builder fee. -/
def place_order_with_builder_fee (rl : RateLimiter) (elapsed_s : ℚ) (is_testnet : Bool)
    (vault_address agent builder : Option Bytes) (signer : SignerFun)
    (order : Json) (builder_fee : Nat) (nonce : Nat) :
    Except HyperliquidError (RateLimiter × L1Result) :=
  match check_weight rl elapsed_s WEIGHT_PLACE_ORDER with
  | Except.error e => Except.error e
  | Except.ok rl' =>
    Except.ok (rl', send_l1_action is_testnet vault_address agent signer "order"
      (bulk_order_fee_value order builder builder_fee) nonce)

/-- `ExchangeProvider::place_order_with_cloid`: sets the cloid on the order
and delegates to place_order (whose admission check runs first). -/
def place_order_with_cloid (rl : RateLimiter) (elapsed_s : ℚ) (is_testnet : Bool)
    (vault_address agent builder : Option Bytes) (signer : SignerFun)
    (order : Json) (cloid : String) (nonce : Nat) :
    Except HyperliquidError (RateLimiter × L1Result) :=
  place_order rl elapsed_s is_testnet vault_address agent builder signer
    (with_cloid order cloid) nonce

/-- `ExchangeProvider::cancel_order_by_cloid`: admission check, then the
L1 dispatch of the BulkCancelCloid value under the cancelByCloid tag. -/
def cancel_order_by_cloid (rl : RateLimiter) (elapsed_s : ℚ) (is_testnet : Bool)
    (vault_address agent : Option Bytes) (signer : SignerFun)
    (asset : Nat) (cloid : String) (nonce : Nat) :
    Except HyperliquidError (RateLimiter × L1Result) :=
  match check_weight rl elapsed_s WEIGHT_CANCEL_ORDER with
  | Except.error e => Except.error e
  | Except.ok rl' =>
    Except.ok (rl', send_l1_action is_testnet vault_address agent signer "cancelByCloid"
      (mkObj [("cancels", Json.arr [mkObj [("asset", Json.num (JNumber.posInt asset)),
                                           ("cloid", Json.str cloid)]])]) nonce)

/-- `ExchangeProvider::modify_order`: admission check for the modify
weight, then the L1 dispatch of the BulkModify value under batchModify. -/
def modify_order (rl : RateLimiter) (elapsed_s : ℚ) (is_testnet : Bool)
    (vault_address agent : Option Bytes) (signer : SignerFun)
    (oid : Nat) (new_order : Json) (nonce : Nat) :
    Except HyperliquidError (RateLimiter × L1Result) :=
  match check_weight rl elapsed_s WEIGHT_MODIFY_ORDER with
  | Except.error e => Except.error e
  | Except.ok rl' =>
    Except.ok (rl', send_l1_action is_testnet vault_address agent signer "batchModify"
      (mkObj [("modifies", Json.arr [mkObj [("oid", Json.num (JNumber.posInt oid)),
                                            ("order", new_order)]])]) nonce)

/-- `ExchangeProvider::bulk_orders`: admission check for the bulk order
weight, then one L1 dispatch of all orders (builder fee 0). -/
def bulk_orders (rl : RateLimiter) (elapsed_s : ℚ) (is_testnet : Bool)
    (vault_address agent builder : Option Bytes) (signer : SignerFun)
    (orders : List Json) (nonce : Nat) :
    Except HyperliquidError (RateLimiter × L1Result) :=
  match check_weight rl elapsed_s WEIGHT_BULK_ORDER with
  | Except.error e => Except.error e
  | Except.ok rl' =>
    Except.ok (rl', send_l1_action is_testnet vault_address agent signer "order"
      (bulk_orders_value orders builder 0) nonce)

/-- `ExchangeProvider::bulk_orders_with_builder_fee`. -/
def bulk_orders_with_builder_fee (rl : RateLimiter) (elapsed_s : ℚ) (is_testnet : Bool)
    (vault_address agent builder : Option Bytes) (signer : SignerFun)
    (orders : List Json) (builder_fee : Nat) (nonce : Nat) :
    Except HyperliquidError (RateLimiter × L1Result) :=
  match check_weight rl elapsed_s WEIGHT_BULK_ORDER with
  | Except.error e => Except.error e
  | Except.ok rl' =>
    Except.ok (rl', send_l1_action is_testnet vault_address agent signer "order"
      (bulk_orders_value orders builder builder_fee) nonce)

/-- `ExchangeProvider::bulk_orders_with_cloids`: sets each order's cloid
(when given) and delegates to bulk_orders. -/
def bulk_orders_with_cloids (rl : RateLimiter) (elapsed_s : ℚ) (is_testnet : Bool)
    (vault_address agent builder : Option Bytes) (signer : SignerFun)
    (orders : List (Json × Option String)) (nonce : Nat) :
    Except HyperliquidError (RateLimiter × L1Result) :=
  bulk_orders rl elapsed_s is_testnet vault_address agent builder signer
    (orders.map (fun oc => match oc.2 with
      | some c => with_cloid oc.1 c
      | none => oc.1)) nonce

/-- `ExchangeProvider::bulk_cancel`: admission check for the bulk cancel
weight, then one L1 dispatch of all cancels. -/
def bulk_cancel (rl : RateLimiter) (elapsed_s : ℚ) (is_testnet : Bool)
    (vault_address agent : Option Bytes) (signer : SignerFun)
    (cancels : List Json) (nonce : Nat) :
    Except HyperliquidError (RateLimiter × L1Result) :=
  match check_weight rl elapsed_s WEIGHT_BULK_CANCEL with
  | Except.error e => Except.error e
  | Except.ok rl' =>
    Except.ok (rl', send_l1_action is_testnet vault_address agent signer "cancel"
      (mkObj [("cancels", Json.arr cancels)]) nonce)

/-- `ExchangeProvider::bulk_cancel_by_cloid`. -/
def bulk_cancel_by_cloid (rl : RateLimiter) (elapsed_s : ℚ) (is_testnet : Bool)
    (vault_address agent : Option Bytes) (signer : SignerFun)
    (cancels : List Json) (nonce : Nat) :
    Except HyperliquidError (RateLimiter × L1Result) :=
  match check_weight rl elapsed_s WEIGHT_BULK_CANCEL with
  | Except.error e => Except.error e
  | Except.ok rl' =>
    Except.ok (rl', send_l1_action is_testnet vault_address agent signer "cancelByCloid"
      (mkObj [("cancels", Json.arr cancels)]) nonce)

/-- `ExchangeProvider::bulk_modify`: admission check (the source bills it
under the bulk order weight), then one L1 dispatch under batchModify. -/
def bulk_modify (rl : RateLimiter) (elapsed_s : ℚ) (is_testnet : Bool)
    (vault_address agent : Option Bytes) (signer : SignerFun)
    (modifies : List Json) (nonce : Nat) :
    Except HyperliquidError (RateLimiter × L1Result) :=
  match check_weight rl elapsed_s WEIGHT_BULK_ORDER with
  | Except.error e => Except.error e
  | Except.ok rl' =>
    Except.ok (rl', send_l1_action is_testnet vault_address agent signer "batchModify"
      (mkObj [("modifies", Json.arr modifies)]) nonce)

/-- `ExchangeProvider::update_isolated_margin`: dispatches directly, with
no admission check. -/
def update_isolated_margin (rl : RateLimiter) (_elapsed_s : ℚ) (is_testnet : Bool)
    (vault_address agent : Option Bytes) (signer : SignerFun)
    (asset : Nat) (is_buy : Bool) (ntli : Int) (nonce : Nat) :
    Except HyperliquidError (RateLimiter × L1Result) :=
  Except.ok (rl, send_l1_action is_testnet vault_address agent signer "updateIsolatedMargin"
    (mkObj [("asset", Json.num (JNumber.posInt asset)),
            ("isBuy", Json.bool is_buy),
            ("ntli", Json.num (jsonOfI64 ntli))]) nonce)

/-- `ExchangeProvider::set_referrer`: dispatches directly, with no
admission check. -/
def set_referrer (rl : RateLimiter) (_elapsed_s : ℚ) (is_testnet : Bool)
    (vault_address agent : Option Bytes) (signer : SignerFun)
    (code : String) (nonce : Nat) :
    Except HyperliquidError (RateLimiter × L1Result) :=
  Except.ok (rl, send_l1_action is_testnet vault_address agent signer "setReferrer"
    (mkObj [("code", Json.str code)]) nonce)

/-- `ExchangeProvider::vault_transfer`: dispatches directly, with no
admission check. -/
def vault_transfer (rl : RateLimiter) (_elapsed_s : ℚ) (is_testnet : Bool)
    (vault_address agent : Option Bytes) (signer : SignerFun)
    (vault_target : Bytes) (is_deposit : Bool) (usd : Nat) (nonce : Nat) :
    Except HyperliquidError (RateLimiter × L1Result) :=
  Except.ok (rl, send_l1_action is_testnet vault_address agent signer "vaultTransfer"
    (mkObj [("vaultAddress", Json.str (addressHex vault_target)),
            ("isDeposit", Json.bool is_deposit),
            ("usd", Json.num (JNumber.posInt usd))]) nonce)

/-- `ExchangeProvider::spot_transfer_to_perp`: dispatches directly, with
no admission check. -/
def spot_transfer_to_perp (rl : RateLimiter) (_elapsed_s : ℚ) (is_testnet : Bool)
    (vault_address agent : Option Bytes) (signer : SignerFun)
    (usd_size : Nat) (to_perp : Bool) (nonce : Nat) :
    Except HyperliquidError (RateLimiter × L1Result) :=
  Except.ok (rl, send_l1_action is_testnet vault_address agent signer "spotUser"
    (mkObj [("classTransfer", mkObj [("usdSize", Json.num (JNumber.posInt usd_size)),
                                     ("toPerp", Json.bool to_perp)])]) nonce)

/-- `ExchangeProvider::usd_transfer`: builds the UsdSend action and sends
it as a user action, with no admission check. -/
def usd_transfer (rl : RateLimiter) (_elapsed_s : ℚ) (is_testnet : Bool)
    (vault_address : Option Bytes) (sig : HyperliquidSignature)
    (destination : Bytes) (amount : String) (now_ms : Nat) :
    Except HyperliquidError (RateLimiter × (Json × Nat)) :=
  let chain_id := (infer_network is_testnet).1
  let action : UsdSend :=
    { signature_chain_id := chain_id
    , hyperliquid_chain := if chain_id = CHAIN_ID_MAINNET then "Mainnet" else "Testnet"
    , destination := addressHex destination
    , amount := amount
    , time := current_nonce now_ms }
  Except.ok (rl, send_user_action UsdSend.rust_name (UsdSend.toValue action)
    (current_nonce now_ms) vault_address sig)

/-- `ExchangeProvider::withdraw`: builds the Withdraw action and sends it
as a user action, with no admission check. -/
def withdraw (rl : RateLimiter) (_elapsed_s : ℚ) (is_testnet : Bool)
    (vault_address : Option Bytes) (sig : HyperliquidSignature)
    (destination : Bytes) (amount : String) (now_ms : Nat) :
    Except HyperliquidError (RateLimiter × (Json × Nat)) :=
  let chain_id := (infer_network is_testnet).1
  let action : Withdraw :=
    { signature_chain_id := chain_id
    , hyperliquid_chain := if chain_id = CHAIN_ID_MAINNET then "Mainnet" else "Testnet"
    , destination := addressHex destination
    , amount := amount
    , time := current_nonce now_ms }
  Except.ok (rl, send_user_action Withdraw.rust_name (Withdraw.toValue action)
    (current_nonce now_ms) vault_address sig)

/-- `ExchangeProvider::spot_transfer`: builds the SpotSend action and
sends it as a user action, with no admission check. -/
def spot_transfer (rl : RateLimiter) (_elapsed_s : ℚ) (is_testnet : Bool)
    (vault_address : Option Bytes) (sig : HyperliquidSignature)
    (destination : Bytes) (token amount : String) (now_ms : Nat) :
    Except HyperliquidError (RateLimiter × (Json × Nat)) :=
  let chain_id := (infer_network is_testnet).1
  let action : SpotSend :=
    { signature_chain_id := chain_id
    , hyperliquid_chain := if chain_id = CHAIN_ID_MAINNET then "Mainnet" else "Testnet"
    , destination := addressHex destination
    , token := token
    , amount := amount
    , time := current_nonce now_ms }
  Except.ok (rl, send_user_action SpotSend.rust_name (SpotSend.toValue action)
    (current_nonce now_ms) vault_address sig)

/-- `ExchangeProvider::approve_agent`: builds the ApproveAgent action and
sends it as a user action, with no admission check. -/
def approve_agent (rl : RateLimiter) (_elapsed_s : ℚ) (is_testnet : Bool)
    (vault_address : Option Bytes) (sig : HyperliquidSignature)
    (agent_address : Bytes) (agent_name : Option String) (now_ms : Nat) :
    Except HyperliquidError (RateLimiter × (Json × Nat)) :=
  Except.ok (rl, send_user_action ApproveAgent.rust_name
    (ApproveAgent.toValue (approve_agent_action is_testnet agent_address agent_name
      (current_nonce now_ms)))
    (current_nonce now_ms) vault_address sig)

/-- `ExchangeProvider::approve_builder_fee`: builds the ApproveBuilderFee
action and sends it as a user action, with no admission check. -/
def approve_builder_fee (rl : RateLimiter) (_elapsed_s : ℚ) (is_testnet : Bool)
    (vault_address : Option Bytes) (sig : HyperliquidSignature)
    (builder : Bytes) (max_fee_rate : String) (now_ms : Nat) :
    Except HyperliquidError (RateLimiter × (Json × Nat)) :=
  let chain_id := (infer_network is_testnet).1
  let action : ApproveBuilderFee :=
    { signature_chain_id := chain_id
    , hyperliquid_chain := if chain_id = CHAIN_ID_MAINNET then "Mainnet" else "Testnet"
    , max_fee_rate := max_fee_rate
    , builder := addressHex builder
    , nonce := current_nonce now_ms }
  Except.ok (rl, send_user_action ApproveBuilderFee.rust_name
    (ApproveBuilderFee.toValue action) (current_nonce now_ms) vault_address sig)

/- ===================== Helper lemmas ===================== -/

theorem iotaStep_length (rc : Nat) (l : List Nat) : (iotaStep rc l).length = l.length := by
  cases l <;> simp [iotaStep]

theorem chi_length (s : List Nat) : (chi s).length = 25 := by
  simp [chi]

theorem keccakRound_length (s : List Nat) (rc : Nat) : (keccakRound s rc).length = 25 := by
  simp [keccakRound, iotaStep_length, chi_length]

theorem foldl_keccakRound_length (l : List Nat) (s : List Nat) (h : s.length = 25) :
    (l.foldl keccakRound s).length = 25 := by
  induction l generalizing s with
  | nil => simpa using h
  | cons a t ih => simpa using ih _ (keccakRound_length s a)

theorem absorbBlock_length (st : List Nat) (block : Bytes) :
    (absorbBlock st block).length = 25 := by
  exact foldl_keccakRound_length _ _ (by simp)

theorem absorbChunks_length (n : Nat) (st : List Nat) (msg : Bytes) (h : st.length = 25) :
    (absorbChunks n st msg).length = 25 := by
  induction n generalizing st msg with
  | zero => simpa [absorbChunks] using h
  | succ m ih => exact ih _ _ (absorbBlock_length _ _)

theorem flatten_map_laneBytes_length (l : List Nat) :
    ((l.map laneBytes).flatten).length = 8 * l.length := by
  induction l with
  | nil => simp
  | cons a t ih =>
    simp [laneBytes, ih]
    omega

theorem keccak256_length (msg : Bytes) : (keccak256 msg).length = 32 := by
  have h25 := absorbChunks_length ((keccakPad msg).length / 136) (List.replicate 25 0)
    (keccakPad msg) (by simp)
  simp only [keccak256]
  rw [flatten_map_laneBytes_length, List.length_take, h25]
  norm_num

theorem be256_length (n : Nat) : (be256 n).length = 32 := by
  simp [be256]

theorem encode_field_length (v : Json) : (encode_field v).length = 32 := by
  match v with
  | .str s => simp [encode_field, keccak256_length]
  | .num n => cases n <;> simp [encode_field, JNumber.as_u64, be256_length]
  | .null => simp [encode_field]
  | .bool b => simp [encode_field]
  | .arr l => simp [encode_field]
  | .obj l => simp [encode_field]

theorem objGet_go_insert (k : String) (v : Json) (l : List (String × Json)) :
    objGet.go k (objInsert k v l) = some v := by
  induction l with
  | nil => simp [objInsert, objGet.go]
  | cons hd tl ih =>
    obtain ⟨k', v'⟩ := hd
    by_cases h1 : keyLt k k' = true
    · simp [objInsert, h1, objGet.go]
    · by_cases h2 : k = k'
      · subst h2
        simp [objInsert, h1, objGet.go]
      · simp [objInsert, h1, h2, objGet.go, ih]

theorem tagJson_get_type (t : String) (fields : List (String × Json)) :
    objGet "type" (tagJson t (Json.obj fields)) = some (Json.str t) := by
  simpa [tagJson, objGet] using objGet_go_insert "type" (Json.str t) fields

/- ===================== Sanity: Keccak test vector ===================== -/

set_option maxRecDepth 10000

/-- Keccak-256 of the empty string, the standard test vector. -/
theorem keccak256_empty_vector :
    keccak256 [] =
      [0xc5, 0xd2, 0x46, 0x01, 0x86, 0xf7, 0x23, 0x3c, 0x92, 0x7e, 0x7d, 0xb2,
       0xdc, 0xc7, 0x03, 0xc0, 0xe5, 0x00, 0xb6, 0x53, 0xca, 0x82, 0x27, 0x3b,
       0x7b, 0xfa, 0xd8, 0x04, 0x5d, 0x85, 0xa4, 0x70] := by decide

/- ===================== Claims ===================== -/

/-- C1: the claim states that `struct_hash` hashes the encoded field values
in the declared type-signature field order. The code instead iterates the
serde_json BTreeMap of the serialized action, i.e. alphabetical camelCase
key order: for UsdSend the data is hashed as amount, destination,
hyperliquidChain, time, while the type signature declares hyperliquidChain,
destination, amount, time. The signatureChainId entry is removed
deterministically, as claimed; the order part fails (the repository's own
signer tests encode in declared order, contradicting encode_data). -/
theorem c1_encode_data_field_order_bug :
    (∀ a : UsdSend,
      encode_data true UsdSend.TYPE_STRING (UsdSend.toValue a)
        = type_hash true UsdSend.TYPE_STRING ++
          List.flatten [encode_field (Json.str a.amount),
                        encode_field (Json.str a.destination),
                        encode_field (Json.str a.hyperliquid_chain),
                        encode_field (Json.num (JNumber.posInt a.time))])
  ∧ (∀ a : UsdSend, encoded_field_order (UsdSend.toValue a)
      = ["amount", "destination", "hyperliquidChain", "time"])
  ∧ declared_field_order UsdSend.TYPE_STRING
      = ["hyperliquidChain", "destination", "amount", "time"]
  ∧ ["amount", "destination", "hyperliquidChain", "time"]
      ≠ ["hyperliquidChain", "destination", "amount", "time"] := by
  refine ⟨fun a => rfl, fun a => rfl, by decide, by decide⟩

/-- C2: the claim states nonce issuance is strictly monotonic even within
one millisecond. `current_nonce` is a bare wall-clock read: two calls
during the same millisecond (equal clock input) return equal values, so
the later call does not return a strictly greater value. -/
theorem c2_current_nonce_not_strictly_monotonic :
    current_nonce 1700000000000 = current_nonce 1700000000000
  ∧ current_nonce 1700000000000 = 1700000000000 := by
  exact ⟨rfl, by decide⟩

/-- C3 (amended): for every order operation of the provider (place_order,
place_order_with_builder_fee, place_order_with_cloid, cancel_order,
cancel_order_by_cloid, modify_order, bulk_orders,
bulk_orders_with_builder_fee, bulk_orders_with_cloids, bulk_cancel,
bulk_cancel_by_cloid, bulk_modify) the admission check for the action's
weight runs before the dispatch, and a failed check short-circuits into
the typed rate-limit error (carrying the requested weight and current
availability) with no network call; the account-management, user-action,
vault and spot operations (update_leverage, update_isolated_margin,
set_referrer, usd_transfer, withdraw, spot_transfer, approve_agent,
approve_builder_fee, vault_transfer, spot_transfer_to_perp) perform no
admission check at all and always dispatch, leaving the bucket
untouched. -/
theorem c3_admission_gates_order_operations :
    (∀ (rl : RateLimiter) (elapsed_s : ℚ) (is_testnet : Bool)
        (vault agent builder : Option Bytes) (signer : SignerFun) (order : Json)
        (nonce : Nat) (e : HyperliquidError),
      check_weight rl elapsed_s WEIGHT_PLACE_ORDER = Except.error e →
      place_order rl elapsed_s is_testnet vault agent builder signer order nonce
        = Except.error e)
  ∧ (∀ (rl : RateLimiter) (elapsed_s : ℚ) (is_testnet : Bool)
        (vault agent builder : Option Bytes) (signer : SignerFun) (order : Json)
        (builder_fee nonce : Nat) (e : HyperliquidError),
      check_weight rl elapsed_s WEIGHT_PLACE_ORDER = Except.error e →
      place_order_with_builder_fee rl elapsed_s is_testnet vault agent builder signer
          order builder_fee nonce
        = Except.error e)
  ∧ (∀ (rl : RateLimiter) (elapsed_s : ℚ) (is_testnet : Bool)
        (vault agent builder : Option Bytes) (signer : SignerFun) (order : Json)
        (cloid : String) (nonce : Nat) (e : HyperliquidError),
      check_weight rl elapsed_s WEIGHT_PLACE_ORDER = Except.error e →
      place_order_with_cloid rl elapsed_s is_testnet vault agent builder signer
          order cloid nonce
        = Except.error e)
  ∧ (∀ (rl : RateLimiter) (elapsed_s : ℚ) (is_testnet : Bool)
        (vault agent : Option Bytes) (signer : SignerFun) (asset oid nonce : Nat)
        (e : HyperliquidError),
      check_weight rl elapsed_s WEIGHT_CANCEL_ORDER = Except.error e →
      cancel_order rl elapsed_s is_testnet vault agent signer asset oid nonce
        = Except.error e)
  ∧ (∀ (rl : RateLimiter) (elapsed_s : ℚ) (is_testnet : Bool)
        (vault agent : Option Bytes) (signer : SignerFun) (asset : Nat)
        (cloid : String) (nonce : Nat) (e : HyperliquidError),
      check_weight rl elapsed_s WEIGHT_CANCEL_ORDER = Except.error e →
      cancel_order_by_cloid rl elapsed_s is_testnet vault agent signer asset cloid nonce
        = Except.error e)
  ∧ (∀ (rl : RateLimiter) (elapsed_s : ℚ) (is_testnet : Bool)
        (vault agent : Option Bytes) (signer : SignerFun) (oid : Nat)
        (new_order : Json) (nonce : Nat) (e : HyperliquidError),
      check_weight rl elapsed_s WEIGHT_MODIFY_ORDER = Except.error e →
      modify_order rl elapsed_s is_testnet vault agent signer oid new_order nonce
        = Except.error e)
  ∧ (∀ (rl : RateLimiter) (elapsed_s : ℚ) (is_testnet : Bool)
        (vault agent builder : Option Bytes) (signer : SignerFun)
        (orders : List Json) (nonce : Nat) (e : HyperliquidError),
      check_weight rl elapsed_s WEIGHT_BULK_ORDER = Except.error e →
      bulk_orders rl elapsed_s is_testnet vault agent builder signer orders nonce
        = Except.error e)
  ∧ (∀ (rl : RateLimiter) (elapsed_s : ℚ) (is_testnet : Bool)
        (vault agent builder : Option Bytes) (signer : SignerFun)
        (orders : List Json) (builder_fee nonce : Nat) (e : HyperliquidError),
      check_weight rl elapsed_s WEIGHT_BULK_ORDER = Except.error e →
      bulk_orders_with_builder_fee rl elapsed_s is_testnet vault agent builder signer
          orders builder_fee nonce
        = Except.error e)
  ∧ (∀ (rl : RateLimiter) (elapsed_s : ℚ) (is_testnet : Bool)
        (vault agent builder : Option Bytes) (signer : SignerFun)
        (orders : List (Json × Option String)) (nonce : Nat) (e : HyperliquidError),
      check_weight rl elapsed_s WEIGHT_BULK_ORDER = Except.error e →
      bulk_orders_with_cloids rl elapsed_s is_testnet vault agent builder signer
          orders nonce
        = Except.error e)
  ∧ (∀ (rl : RateLimiter) (elapsed_s : ℚ) (is_testnet : Bool)
        (vault agent : Option Bytes) (signer : SignerFun)
        (cancels : List Json) (nonce : Nat) (e : HyperliquidError),
      check_weight rl elapsed_s WEIGHT_BULK_CANCEL = Except.error e →
      bulk_cancel rl elapsed_s is_testnet vault agent signer cancels nonce
        = Except.error e)
  ∧ (∀ (rl : RateLimiter) (elapsed_s : ℚ) (is_testnet : Bool)
        (vault agent : Option Bytes) (signer : SignerFun)
        (cancels : List Json) (nonce : Nat) (e : HyperliquidError),
      check_weight rl elapsed_s WEIGHT_BULK_CANCEL = Except.error e →
      bulk_cancel_by_cloid rl elapsed_s is_testnet vault agent signer cancels nonce
        = Except.error e)
  ∧ (∀ (rl : RateLimiter) (elapsed_s : ℚ) (is_testnet : Bool)
        (vault agent : Option Bytes) (signer : SignerFun)
        (modifies : List Json) (nonce : Nat) (e : HyperliquidError),
      check_weight rl elapsed_s WEIGHT_BULK_ORDER = Except.error e →
      bulk_modify rl elapsed_s is_testnet vault agent signer modifies nonce
        = Except.error e)
  ∧ (∀ (rl : RateLimiter) (elapsed_s : ℚ) (weight : Nat),
      ¬ ((weight : ℚ) ≤ min rl.capacity (rl.tokens + elapsed_s * rl.refill_rate)) →
      check_weight rl elapsed_s weight
        = Except.error (HyperliquidError.rateLimited weight
            (min rl.capacity (rl.tokens + elapsed_s * rl.refill_rate))))
  ∧ (∀ (rl : RateLimiter) (elapsed_s : ℚ) (is_testnet : Bool)
        (vault agent : Option Bytes) (signer : SignerFun)
        (asset : Nat) (is_cross : Bool) (leverage nonce : Nat),
      update_leverage rl elapsed_s is_testnet vault agent signer asset is_cross leverage nonce
        = Except.ok (rl, send_l1_action is_testnet vault agent signer "updateLeverage"
            (UpdateLeverage.toValue { asset := asset, is_cross := is_cross, leverage := leverage })
            nonce))
  ∧ (∀ (rl : RateLimiter) (elapsed_s : ℚ) (is_testnet : Bool)
        (vault agent : Option Bytes) (signer : SignerFun)
        (asset : Nat) (is_buy : Bool) (ntli : Int) (nonce : Nat),
      update_isolated_margin rl elapsed_s is_testnet vault agent signer asset is_buy ntli nonce
        = Except.ok (rl, send_l1_action is_testnet vault agent signer "updateIsolatedMargin"
            (mkObj [("asset", Json.num (JNumber.posInt asset)),
                    ("isBuy", Json.bool is_buy),
                    ("ntli", Json.num (jsonOfI64 ntli))]) nonce))
  ∧ (∀ (rl : RateLimiter) (elapsed_s : ℚ) (is_testnet : Bool)
        (vault agent : Option Bytes) (signer : SignerFun) (code : String) (nonce : Nat),
      set_referrer rl elapsed_s is_testnet vault agent signer code nonce
        = Except.ok (rl, send_l1_action is_testnet vault agent signer "setReferrer"
            (mkObj [("code", Json.str code)]) nonce))
  ∧ (∀ (rl : RateLimiter) (elapsed_s : ℚ) (is_testnet : Bool)
        (vault agent : Option Bytes) (signer : SignerFun)
        (vault_target : Bytes) (is_deposit : Bool) (usd nonce : Nat),
      vault_transfer rl elapsed_s is_testnet vault agent signer vault_target is_deposit
          usd nonce
        = Except.ok (rl, send_l1_action is_testnet vault agent signer "vaultTransfer"
            (mkObj [("vaultAddress", Json.str (addressHex vault_target)),
                    ("isDeposit", Json.bool is_deposit),
                    ("usd", Json.num (JNumber.posInt usd))]) nonce))
  ∧ (∀ (rl : RateLimiter) (elapsed_s : ℚ) (is_testnet : Bool)
        (vault agent : Option Bytes) (signer : SignerFun)
        (usd_size : Nat) (to_perp : Bool) (nonce : Nat),
      spot_transfer_to_perp rl elapsed_s is_testnet vault agent signer usd_size to_perp nonce
        = Except.ok (rl, send_l1_action is_testnet vault agent signer "spotUser"
            (mkObj [("classTransfer",
                     mkObj [("usdSize", Json.num (JNumber.posInt usd_size)),
                            ("toPerp", Json.bool to_perp)])]) nonce))
  ∧ (∀ (rl : RateLimiter) (elapsed_s : ℚ) (is_testnet : Bool)
        (vault : Option Bytes) (sig : HyperliquidSignature)
        (destination : Bytes) (amount : String) (now_ms : Nat),
      (usd_transfer rl elapsed_s is_testnet vault sig destination amount now_ms).map
          Prod.fst
        = Except.ok rl)
  ∧ (∀ (rl : RateLimiter) (elapsed_s : ℚ) (is_testnet : Bool)
        (vault : Option Bytes) (sig : HyperliquidSignature)
        (destination : Bytes) (amount : String) (now_ms : Nat),
      (withdraw rl elapsed_s is_testnet vault sig destination amount now_ms).map Prod.fst
        = Except.ok rl)
  ∧ (∀ (rl : RateLimiter) (elapsed_s : ℚ) (is_testnet : Bool)
        (vault : Option Bytes) (sig : HyperliquidSignature)
        (destination : Bytes) (token amount : String) (now_ms : Nat),
      (spot_transfer rl elapsed_s is_testnet vault sig destination token amount
          now_ms).map Prod.fst
        = Except.ok rl)
  ∧ (∀ (rl : RateLimiter) (elapsed_s : ℚ) (is_testnet : Bool)
        (vault : Option Bytes) (sig : HyperliquidSignature)
        (agent_address : Bytes) (agent_name : Option String) (now_ms : Nat),
      approve_agent rl elapsed_s is_testnet vault sig agent_address agent_name now_ms
        = Except.ok (rl, send_user_action ApproveAgent.rust_name
            (ApproveAgent.toValue (approve_agent_action is_testnet agent_address agent_name
              (current_nonce now_ms)))
            (current_nonce now_ms) vault sig))
  ∧ (∀ (rl : RateLimiter) (elapsed_s : ℚ) (is_testnet : Bool)
        (vault : Option Bytes) (sig : HyperliquidSignature)
        (builder : Bytes) (max_fee_rate : String) (now_ms : Nat),
      (approve_builder_fee rl elapsed_s is_testnet vault sig builder max_fee_rate
          now_ms).map Prod.fst
        = Except.ok rl) := by
  refine ⟨?_, ?_, ?_, ?_, ?_, ?_, ?_, ?_, ?_, ?_, ?_, ?_, ?_, ?_, ?_, ?_, ?_, ?_,
    ?_, ?_, ?_, ?_, ?_⟩
  · intro rl elapsed_s is_testnet vault agent builder signer order nonce e h
    unfold place_order
    rw [h]
  · intro rl elapsed_s is_testnet vault agent builder signer order builder_fee nonce e h
    unfold place_order_with_builder_fee
    rw [h]
  · intro rl elapsed_s is_testnet vault agent builder signer order cloid nonce e h
    unfold place_order_with_cloid place_order
    rw [h]
  · intro rl elapsed_s is_testnet vault agent signer asset oid nonce e h
    unfold cancel_order
    rw [h]
  · intro rl elapsed_s is_testnet vault agent signer asset cloid nonce e h
    unfold cancel_order_by_cloid
    rw [h]
  · intro rl elapsed_s is_testnet vault agent signer oid new_order nonce e h
    unfold modify_order
    rw [h]
  · intro rl elapsed_s is_testnet vault agent builder signer orders nonce e h
    unfold bulk_orders
    rw [h]
  · intro rl elapsed_s is_testnet vault agent builder signer orders builder_fee nonce e h
    unfold bulk_orders_with_builder_fee
    rw [h]
  · intro rl elapsed_s is_testnet vault agent builder signer orders nonce e h
    unfold bulk_orders_with_cloids bulk_orders
    rw [h]
  · intro rl elapsed_s is_testnet vault agent signer cancels nonce e h
    unfold bulk_cancel
    rw [h]
  · intro rl elapsed_s is_testnet vault agent signer cancels nonce e h
    unfold bulk_cancel_by_cloid
    rw [h]
  · intro rl elapsed_s is_testnet vault agent signer modifies nonce e h
    unfold bulk_modify
    rw [h]
  · intro rl elapsed_s weight h
    unfold check_weight
    rw [if_neg h]
  · intro rl elapsed_s is_testnet vault agent signer asset is_cross leverage nonce
    rfl
  · intro rl elapsed_s is_testnet vault agent signer asset is_buy ntli nonce
    rfl
  · intro rl elapsed_s is_testnet vault agent signer code nonce
    rfl
  · intro rl elapsed_s is_testnet vault agent signer vault_target is_deposit usd nonce
    rfl
  · intro rl elapsed_s is_testnet vault agent signer usd_size to_perp nonce
    rfl
  · intro rl elapsed_s is_testnet vault sig destination amount now_ms
    rfl
  · intro rl elapsed_s is_testnet vault sig destination amount now_ms
    rfl
  · intro rl elapsed_s is_testnet vault sig destination token amount now_ms
    rfl
  · intro rl elapsed_s is_testnet vault sig agent_address agent_name now_ms
    rfl
  · intro rl elapsed_s is_testnet vault sig builder max_fee_rate now_ms
    rfl

/-- Witness for C3's amended theorem at a concrete zero-token bucket. -/
theorem c3_admission_gates_order_operations_witness :
    place_order { capacity := 1200, refill_rate := 10, tokens := 0 } 0 false
        none none none (fun _ => { r := 0, s := 0, v := 0 }) Json.null 5
      = Except.error (HyperliquidError.rateLimited 1 0) :=
  c3_admission_gates_order_operations.1
    { capacity := 1200, refill_rate := 10, tokens := 0 } 0 false
    none none none (fun _ => { r := 0, s := 0, v := 0 }) Json.null 5
    (HyperliquidError.rateLimited 1 0) (by
      unfold check_weight
      rw [if_neg (by norm_num [WEIGHT_PLACE_ORDER]),
        show min (1200 : ℚ) (0 + 0 * 10) = 0 by norm_num]
      norm_num [WEIGHT_PLACE_ORDER])

/-- C3 counterexample: with an empty bucket (where an admission check of
any positive weight fails), `update_leverage` still produces a dispatched
network request instead of the typed rate-limit error the claim requires,
because the source performs no admission check for it. -/
theorem c3_counterexample_update_leverage_no_admission :
    (check_weight { capacity := 1200, refill_rate := 10, tokens := 0 } 0 1).isOk = false
  ∧ (update_leverage { capacity := 1200, refill_rate := 10, tokens := 0 } 0 false
      none none (fun _ => { r := 0, s := 0, v := 0 }) 3 true 10 7).isOk = true := by
  constructor
  · unfold check_weight
    rw [if_neg (by norm_num)]
    rfl
  · rfl

/-- A concrete UsdSend instance used as the C4 failing input. -/
def c4_usd_send_example : UsdSend :=
  { signature_chain_id := 42161
  , hyperliquid_chain := "Mainnet"
  , destination := "0x0d1d9635d0640821d15e323ac8adadfa9c111414"
  , amount := "1"
  , time := 1690393044548 }

/-- C4 counterexample: the wire `type` tag of a dispatched UsdSend is the
Rust type name "UsdSend" (PascalCase, from `std::any::type_name`), not the
lower-camel-case "usdSend" the claim requires for user actions. -/
theorem c4_counterexample_user_type_tag_pascal_case :
    (objGet "action" ((send_user_action UsdSend.rust_name (UsdSend.toValue c4_usd_send_example)
        0 none { r := 0, s := 0, v := 0 }).1)).bind (objGet "type")
      = some (Json.str "UsdSend")
  ∧ "UsdSend" ≠ "usdSend" := by
  exact ⟨rfl, by decide⟩

/-- C4 (amended): every transmitted action object carries a `type` string
field; for L1-style dispatches without an acting agent it equals the
lower-camel tag supplied at the call site (for example "order" from
place_order and "updateLeverage" from update_leverage); with an acting
agent the outer object's tag is "agent"; for user actions it equals the
Rust struct name in PascalCase, for example "UsdSend". -/
theorem c4_amended_wire_type_tags :
    (∀ (t : String) (fields : List (String × Json)),
      objGet "type" (tagJson t (Json.obj fields)) = some (Json.str t))
  ∧ (∀ (rl : RateLimiter) (elapsed_s : ℚ) (is_testnet : Bool)
        (vault builder : Option Bytes) (signer : SignerFun) (order : Json)
        (nonce : Nat),
      (place_order rl elapsed_s is_testnet vault none builder signer order nonce).map
          (fun p => (objGet "action" p.2.payload).bind (objGet "type"))
        = (check_weight rl elapsed_s WEIGHT_PLACE_ORDER).map
            (fun _ => some (Json.str "order")))
  ∧ (∀ (rl : RateLimiter) (elapsed_s : ℚ) (is_testnet : Bool)
        (vault : Option Bytes) (signer : SignerFun)
        (asset : Nat) (is_cross : Bool) (leverage nonce : Nat),
      (update_leverage rl elapsed_s is_testnet vault none signer asset is_cross leverage
          nonce).map (fun p => (objGet "action" p.2.payload).bind (objGet "type"))
        = Except.ok (some (Json.str "updateLeverage")))
  ∧ (∀ (is_testnet : Bool) (vault : Option Bytes) (agent_address : Bytes)
        (signer : SignerFun) (action_type : String) (fields : List (String × Json))
        (nonce : Nat),
      (objGet "action" (send_l1_action is_testnet vault (some agent_address) signer
          action_type (Json.obj fields) nonce).payload).bind (objGet "type")
        = some (Json.str "agent"))
  ∧ (∀ (a : UsdSend) (fresh : Nat) (vault : Option Bytes) (sig : HyperliquidSignature),
      (objGet "action" ((send_user_action UsdSend.rust_name (UsdSend.toValue a)
          fresh vault sig).1)).bind (objGet "type") = some (Json.str UsdSend.rust_name))
  ∧ (∀ (a : ApproveAgent) (fresh : Nat) (vault : Option Bytes) (sig : HyperliquidSignature),
      (objGet "action" ((send_user_action ApproveAgent.rust_name (ApproveAgent.toValue a)
          fresh vault sig).1)).bind (objGet "type") = some (Json.str ApproveAgent.rust_name)) := by
  refine ⟨tagJson_get_type, ?_, ?_, ?_, ?_, ?_⟩
  · intro rl elapsed_s is_testnet vault builder signer order nonce
    unfold place_order
    cases hcw : check_weight rl elapsed_s WEIGHT_PLACE_ORDER with
    | error e => rfl
    | ok rlok => cases builder <;> cases vault <;> rfl
  · intro rl elapsed_s is_testnet vault signer asset is_cross leverage nonce
    cases vault <;> rfl
  · intro is_testnet vault agent_address signer action_type fields nonce
    cases vault <;> rfl
  · intro a fresh vault sig
    cases vault <;> rfl
  · intro a fresh vault sig
    cases vault <;> rfl

/-- C5: `hash_action` binds the connection id as the keccak hash of the
MessagePack named-field encoding of the type-tagged action, then the
8-byte big-endian nonce, then the vault marker; `send_l1_action` binds
exactly this value into the signed Agent struct, while the POST body
carries the same logical tagged action as a JSON value, not the
MessagePack bytes. -/
theorem c5_connection_id_dual_encoding :
    (∀ (action_type : String) (action : Json) (nonce : Nat) (vault : Option Bytes),
      hash_action action_type action nonce vault
        = keccak256 (msgpackValue (tagJson action_type action) ++ be64 nonce
            ++ vault_marker vault))
  ∧ (∀ (is_testnet : Bool) (vault agent : Option Bytes) (signer : SignerFun)
        (action_type : String) (action : Json) (nonce : Nat),
      (send_l1_action is_testnet vault agent signer action_type action nonce).connection_id
        = hash_action action_type action nonce vault)
  ∧ (∀ (is_testnet : Bool) (vault agent : Option Bytes) (signer : SignerFun)
        (action_type : String) (action : Json) (nonce : Nat),
      (send_l1_action is_testnet vault agent signer action_type action nonce).signing_hash
        = eip712_signing_hash exchange_domain_separator
            (agentStructHash { source := agent_source is_testnet
                             , connection_id := hash_action action_type action nonce vault }))
  ∧ (∀ (is_testnet : Bool) (vault : Option Bytes) (signer : SignerFun)
        (action_type : String) (action : Json) (nonce : Nat),
      objGet "action" (send_l1_action is_testnet vault none signer action_type action
          nonce).payload
        = some (tagJson action_type action)) := by
  refine ⟨?_, ?_, ?_, ?_⟩
  · intro action_type action nonce vault
    cases vault <;> rfl
  · intro is_testnet vault agent signer action_type action nonce
    rfl
  · intro is_testnet vault agent signer action_type action nonce
    rfl
  · intro is_testnet vault signer action_type action nonce
    cases vault <;> rfl

/-- C6: the signing hash of an L1 dispatch is computed over the un-wrapped
action and is identical whether or not an acting-agent address is
configured; the agent configuration only wraps the transmitted action one
level deeper (type "agent", the agent address, the tagged action under
agentAction, and the network source tag). -/
theorem c6_agent_wrap_never_changes_digest :
    (∀ (is_testnet : Bool) (vault : Option Bytes) (agent_address : Bytes)
        (signer : SignerFun) (action_type : String) (action : Json) (nonce : Nat),
      (send_l1_action is_testnet vault (some agent_address) signer action_type action
          nonce).signing_hash
        = (send_l1_action is_testnet vault none signer action_type action
            nonce).signing_hash)
  ∧ (∀ (is_testnet : Bool) (vault : Option Bytes) (agent_address : Bytes)
        (signer : SignerFun) (action_type : String) (action : Json) (nonce : Nat),
      (objGet "action" (send_l1_action is_testnet vault (some agent_address) signer
          action_type action nonce).payload).bind (objGet "agentAction")
        = some (tagJson action_type action))
  ∧ (∀ (is_testnet : Bool) (vault : Option Bytes) (agent_address : Bytes)
        (signer : SignerFun) (action_type : String) (action : Json) (nonce : Nat),
      (objGet "action" (send_l1_action is_testnet vault (some agent_address) signer
          action_type action nonce).payload).bind (objGet "agentAddress")
        = some (Json.str (addressHex agent_address))) := by
  refine ⟨?_, ?_, ?_⟩
  · intro is_testnet vault agent_address signer action_type action nonce
    rfl
  · intro is_testnet vault agent_address signer action_type action nonce
    cases vault <;> rfl
  · intro is_testnet vault agent_address signer action_type action nonce
    cases vault <;> rfl

/-- C7: `type_hash` is an associated function without an instance argument,
hence a single constant per variant, independent of instance data; it
hashes the prefixed type string for transaction-domain variants and the
bare type string otherwise, and the prefixed and bare hashes of one type
string differ (checked concretely for the UsdSend and Agent variants). -/
theorem c7_type_hash_pure_and_prefix_sensitive :
    (∀ ts : String,
      type_hash true ts = keccak256 (utf8Str ("HyperliquidTransaction:" ++ ts))
      ∧ type_hash false ts = keccak256 (utf8Str ts))
  ∧ UsdSend.typeHash = type_hash true UsdSend.TYPE_STRING
  ∧ Agent.typeHash = type_hash false Agent.TYPE_STRING
  ∧ type_hash true UsdSend.TYPE_STRING ≠ type_hash false UsdSend.TYPE_STRING
  ∧ type_hash true Agent.TYPE_STRING ≠ type_hash false Agent.TYPE_STRING := by
  refine ⟨fun ts => ⟨rfl, rfl⟩, rfl, rfl, by decide, by decide⟩

/-- C8: `encode_field` produces exactly 32 bytes: strings are keccak-hashed
(addresses are first rendered as their lowercase 0x-hex string, the very
string the wire JSON carries, as `approve_agent` shows), u64-representable
numbers become 32-byte big-endian, and an absent optional (serialized as
null) becomes 32 zero bytes. -/
theorem c8_encode_field_shapes :
    (∀ s : String, encode_field (Json.str s) = keccak256 (utf8Str s))
  ∧ (∀ n : Nat, encode_field (Json.num (JNumber.posInt n)) = be256 n)
  ∧ encode_field Json.null = List.replicate 32 0
  ∧ (∀ v : Json, (encode_field v).length = 32)
  ∧ (∀ (is_testnet : Bool) (addr : Bytes) (name : Option String) (nonce : Nat),
      (approve_agent_action is_testnet addr name nonce).agent_address = addressHex addr)
  ∧ (∀ (is_testnet : Bool) (addr : Bytes) (name : Option String) (nonce : Nat),
      objGet "agentAddress" (ApproveAgent.toValue (approve_agent_action is_testnet addr name nonce))
        = some (Json.str (addressHex addr)))
  ∧ (∀ (sci : Nat) (chain addr_s : String) (nonce : Nat),
      objGet "agentName" (ApproveAgent.toValue
        { signature_chain_id := sci, hyperliquid_chain := chain,
          agent_address := addr_s, agent_name := none, nonce := nonce })
        = some Json.null) := by
  refine ⟨fun s => rfl, fun n => rfl, rfl, encode_field_length, ?_, ?_, ?_⟩
  · intro is_testnet addr name nonce
    rfl
  · intro is_testnet addr name nonce
    rfl
  · intro sci chain addr_s nonce
    rfl

/-- Observer for C9: the shapes `encode_field` can hash meaningfully — a
string, or a number representable as u64. -/
def hashable_field_shape : Json → Bool
  | .str _ => true
  | .num n => n.as_u64.isSome
  | _ => false

/-- C9: `encode_field` is total and never signals an error: every value
that is neither a string nor a u64-representable number (booleans, floats,
negative integers, arrays, objects, null) silently encodes to 32 zero
bytes. -/
theorem c9_encode_field_silent_zero :
    ∀ v : Json, hashable_field_shape v = false → encode_field v = List.replicate 32 0 := by
  intro v h
  match v with
  | .str s => simp [hashable_field_shape] at h
  | .num n =>
    cases n with
    | posInt m => simp [hashable_field_shape, JNumber.as_u64] at h
    | negInt m => rfl
    | float b => rfl
  | .null => rfl
  | .bool b => rfl
  | .arr l => rfl
  | .obj l => rfl

/-- Witness for C9 at concrete unencodable values. -/
theorem c9_encode_field_silent_zero_witness :
    encode_field (Json.bool true) = List.replicate 32 0 :=
  c9_encode_field_silent_zero (Json.bool true) rfl

/-- C10: for every defined user action, the wire nonce extracted by
`send_user_action` equals the action's own `time` field (or `nonce` field
when it has no `time` field), the POST body carries exactly that value,
and the same value is bound into the hashed struct data (its 32-byte
big-endian encoding is one of the encoded fields); a fresh wall-clock
value is used only when the action has neither field. -/
theorem c10_wire_nonce_matches_signed_time :
    (∀ (a : UsdSend) (fresh : Nat) (vault : Option Bytes) (sig : HyperliquidSignature),
      (send_user_action UsdSend.rust_name (UsdSend.toValue a) fresh vault sig).2 = a.time
      ∧ objGet "nonce" (send_user_action UsdSend.rust_name (UsdSend.toValue a) fresh vault sig).1
          = some (Json.num (JNumber.posInt a.time)))
  ∧ (∀ a : UsdSend,
      encode_data true UsdSend.TYPE_STRING (UsdSend.toValue a)
        = type_hash true UsdSend.TYPE_STRING ++
          List.flatten [encode_field (Json.str a.amount),
                        encode_field (Json.str a.destination),
                        encode_field (Json.str a.hyperliquid_chain),
                        be256 a.time])
  ∧ (∀ (a : Withdraw) (fresh : Nat) (vault : Option Bytes) (sig : HyperliquidSignature),
      (send_user_action Withdraw.rust_name (Withdraw.toValue a) fresh vault sig).2 = a.time)
  ∧ (∀ (a : SpotSend) (fresh : Nat) (vault : Option Bytes) (sig : HyperliquidSignature),
      (send_user_action SpotSend.rust_name (SpotSend.toValue a) fresh vault sig).2 = a.time)
  ∧ (∀ (a : SpotSend),
      encode_data true SpotSend.TYPE_STRING (SpotSend.toValue a)
        = type_hash true SpotSend.TYPE_STRING ++
          List.flatten [encode_field (Json.str a.amount),
                        encode_field (Json.str a.destination),
                        encode_field (Json.str a.hyperliquid_chain),
                        be256 a.time,
                        encode_field (Json.str a.token)])
  ∧ (∀ (a : ApproveAgent) (fresh : Nat) (vault : Option Bytes) (sig : HyperliquidSignature),
      (send_user_action ApproveAgent.rust_name (ApproveAgent.toValue a) fresh vault sig).2
        = a.nonce)
  ∧ (∀ (a : ApproveAgent),
      encode_data true ApproveAgent.TYPE_STRING (ApproveAgent.toValue a)
        = type_hash true ApproveAgent.TYPE_STRING ++
          List.flatten [encode_field (Json.str a.agent_address),
                        encode_field (jsonOfOptString a.agent_name),
                        encode_field (Json.str a.hyperliquid_chain),
                        be256 a.nonce])
  ∧ (∀ (a : ApproveBuilderFee) (fresh : Nat) (vault : Option Bytes) (sig : HyperliquidSignature),
      (send_user_action ApproveBuilderFee.rust_name (ApproveBuilderFee.toValue a) fresh vault
        sig).2 = a.nonce)
  ∧ (∀ (a : ApproveBuilderFee),
      encode_data true ApproveBuilderFee.TYPE_STRING (ApproveBuilderFee.toValue a)
        = type_hash true ApproveBuilderFee.TYPE_STRING ++
          List.flatten [encode_field (Json.str a.builder),
                        encode_field (Json.str a.hyperliquid_chain),
                        encode_field (Json.str a.max_fee_rate),
                        be256 a.nonce])
  ∧ (∀ (t : String) (fresh : Nat) (vault : Option Bytes) (sig : HyperliquidSignature),
      (send_user_action t (Json.obj []) fresh vault sig).2 = fresh) := by
  refine ⟨?_, fun a => rfl, fun a fresh vault sig => rfl, fun a fresh vault sig => rfl,
    fun a => rfl, fun a fresh vault sig => rfl, fun a => rfl,
    fun a fresh vault sig => rfl, fun a => rfl, fun t fresh vault sig => rfl⟩
  intro a fresh vault sig
  exact ⟨rfl, by cases vault <;> rfl⟩
